import Mathlib

/-!
# Tracko: fleet state reconciliation and marker interpolation

A shallow embedding of the client-side state engine of `frontend/app.js`:
the three global tables `busesData`, `busMarkers` and `busAnimations`, and the
functions that mutate them (`fetchInitialBuses`, the add-bus submit handler,
`handleLocationUpdate`, `updateMapMarker`, `animateMarkers`, `deleteBus`).

Modelling conventions.
* A JavaScript object used as a dictionary is an association list of its own
  properties in insertion order, keyed by the property key (a string). The three
  tables are created by `{}`, so a read `t[k]` that finds no own property finds
  the member of `Object.prototype` named `k` when there is one
  (`inheritedNames`); such a member is an object or a function, hence truthy,
  and has none of the methods of a marker.
* `Object.prototype` is the built-in one: members that a write through the
  accessor `__proto__` would add to it are outside the three tables and are not
  tracked.
* A property that reads as `undefined` is `none`.
* Numbers are rationals (exact arithmetic); clock readings are parameters.
* The map is initialised before any of these functions runs (`showApp` calls
  `initMap` first), so `addTo(map)` succeeds.
* The rendering library is used through five facts only: `L.marker([lat, lon])`
  rejects a missing coordinate by throwing, `L.latLng(lat, lon)` returns no
  object when a coordinate is missing, `getLatLng` returns what was last set,
  `setLatLng` stores what it is given, and `removeLayer` of an object that is
  not on the map does nothing.
-/

namespace Tracko

/-! ## Dictionaries -/

/-- Names of the members that every object created by `{}` inherits from
`Object.prototype`. -/
def inheritedNames : List String :=
  ["constructor", "__proto__", "hasOwnProperty", "isPrototypeOf", "propertyIsEnumerable",
   "toLocaleString", "toString", "valueOf", "__defineGetter__", "__defineSetter__",
   "__lookupGetter__", "__lookupSetter__"]

/-- Whether `k` names a member inherited from `Object.prototype`. -/
def inherited (k : String) : Bool := decide (k ∈ inheritedNames)

/-- Dictionary object: own properties in insertion order. -/
abbrev Table (α : Type) := List (String × α)

namespace Table

variable {α : Type}

/-- Own property `k` of `t`; `none` when `t` has no own property `k`. -/
def get : Table α → String → Option α
  | [], _ => none
  | (k', v) :: t, k => if k' = k then some v else get t k

/-- Truthiness of the read `t[k]`, as tested by `if (t[k])` and `!t[k]`: an own
property (always an object here) or an inherited member. -/
def truthy (t : Table α) (k : String) : Bool := (t.get k).isSome || inherited k

/-- Property write `t[k] = v`: overwrite in place, or append a new property. -/
def set : Table α → String → α → Table α
  | [], k, v => [(k, v)]
  | (k', v') :: t, k, v => if k' = k then (k', v) :: t else (k', v') :: set t k v

/-- In-place mutation of the own property `k` (`t[k].field = ...`). When `t` has
no own property `k` the write goes to an object outside the table (an inherited
member) and the table is unchanged. -/
def modify : Table α → String → (α → α) → Table α
  | [], _, _ => []
  | (k', v') :: t, k, f => if k' = k then (k', f v') :: t else (k', v') :: modify t k f

/-- Property removal `delete t[k]`. -/
def erase (t : Table α) (k : String) : Table α :=
  t.filter (fun p => decide (p.1 ≠ k))

/-- Own property names, `Object.keys(t)`. -/
def keys (t : Table α) : List String := t.map Prod.fst

end Table

/-! ## Data -/

/-- String conversion of a possibly undefined string, as done by a property
key or a template literal. -/
def jsString : Option String → String
  | none => "undefined"
  | some s => s

/-- The expression `route || fallback` on a possibly undefined string: the
empty string and `undefined` are falsy. -/
def orElse (v : Option String) (fallback : String) : String :=
  match v with
  | none => fallback
  | some s => if s = "" then fallback else s

/-- Bus record held in `busesData`. `others` are further own properties that a
roster record may carry and that the spread copy `{ ...bus }` keeps. -/
structure Bus where
  bus_id : Option String
  driver_name : Option String
  route_stops : Option String
  lat : Option ℚ
  lon : Option ℚ
  lastUpdated : Option ℕ
  others : List (String × String)
deriving DecidableEq

/-- Streaming message after destructuring `{ bus_id, lat, lon, route }`. -/
structure Update where
  bus_id : Option String
  lat : Option ℚ
  lon : Option ℚ
  route : Option String
deriving DecidableEq

/-- Coordinate object of the rendering library. -/
structure LatLng where
  lat : ℚ
  lng : ℚ
deriving DecidableEq

/-- Marker on the map: its current position and popup content. -/
structure Marker where
  latlng : LatLng
  popup : String
deriving DecidableEq

/-- Entry of `busAnimations`. `targetLatLng` is `none` when `L.latLng` returned
no object. -/
structure Anim where
  startLatLng : LatLng
  targetLatLng : Option LatLng
  startTime : ℚ
  duration : ℚ
deriving DecidableEq

/-- The three global tables. -/
structure State where
  busesData : Table Bus
  busMarkers : Table Marker
  busAnimations : Table Anim
deriving DecidableEq

/-- Result of a call that may throw: the tables as the call left them, and
whether an exception escaped. -/
structure Outcome where
  state : State
  raised : Bool
deriving DecidableEq

/-- Outcome of an awaited `fetch`: `res.ok`, a non-ok status, or a rejection. -/
inductive Fetch where
  | ok
  | notOk
  | failed
deriving DecidableEq

/-- State at page load: `busesData = {}`, `busMarkers = {}`, `busAnimations = {}`. -/
def State.empty : State := ⟨[], [], []⟩

/-! ## Operations -/

/-- Body of the `buses.forEach` callback of `fetchInitialBuses`. -/
def mergeBus (busesData : Table Bus) (bus : Bus) : Table Bus :=
  if !busesData.truthy (jsString bus.bus_id) then
    busesData.set (jsString bus.bus_id) bus
  else busesData

/-- Roster fetch. `response` is the parsed array, or `none` when the fetch or the
parse threw (the handler only logs). -/
def fetchInitialBuses (s : State) (response : Option (List Bus)) : State :=
  match response with
  | none => s
  | some buses => { s with busesData := buses.foldl mergeBus s.busesData }

/-- Success branch of the add-bus submit handler (lines 184-191); the three
values are form field strings. -/
def addBusSubmit (s : State) (bus_id driver_name route_stops : String) (res : Fetch) : State :=
  match res with
  | Fetch.ok =>
    if !s.busesData.truthy bus_id then
      let bus : Bus :=
        { bus_id := some bus_id, driver_name := some driver_name,
          route_stops := some route_stops, lat := none, lon := none,
          lastUpdated := none, others := [] }
      { s with busesData := s.busesData.set bus_id bus }
    else s
  | _ => s

/-- Popup content built by the template literal of `updateMapMarker`. -/
def popupContent (busId : Option String) (routeInfo : Option String) : String :=
  "<b>" ++ jsString busId ++ "</b><br>" ++ jsString routeInfo

/-- Value of `L.latLng(lat, lon)`: no object when a coordinate is missing. -/
def latLng (lat lon : Option ℚ) : Option LatLng :=
  match lat, lon with
  | some a, some b => some ⟨a, b⟩
  | _, _ => none

/-- Marker placement and glide registration, `updateMapMarker`. `perfNow` is the
reading of `performance.now()`. When `busMarkers[busId]` reads an inherited
member the guard of line 334 holds and the call of `getLatLng` on it throws. -/
def updateMapMarker (s : State) (busId : Option String) (lat lon : Option ℚ)
    (routeInfo : Option String) (perfNow : ℚ) : Outcome :=
  match s.busMarkers.get (jsString busId) with
  | some marker =>
    let startLatLng := marker.latlng
    let targetLatLng := latLng lat lon
    let anim : Anim :=
      { startLatLng := startLatLng, targetLatLng := targetLatLng,
        startTime := perfNow, duration := 1000 }
    let setPopupContent : Marker → Marker :=
      fun m => { m with popup := popupContent busId routeInfo }
    { state :=
        { s with
          busAnimations := s.busAnimations.set (jsString busId) anim
          busMarkers := s.busMarkers.modify (jsString busId) setPopupContent }
      raised := false }
  | none =>
    if inherited (jsString busId) then { state := s, raised := true }
    else
      match lat, lon with
      | some a, some b =>
        let marker : Marker := { latlng := ⟨a, b⟩, popup := popupContent busId routeInfo }
        { state := { s with busMarkers := s.busMarkers.set (jsString busId) marker }
          raised := false }
      | _, _ => { state := s, raised := true }

/-- Object literal `{ bus_id, route_stops: route || 'Unknown' }` (line 321). -/
def freshBus (update : Update) : Bus :=
  { bus_id := update.bus_id, driver_name := none,
    route_stops := some (orElse update.route "Unknown"),
    lat := none, lon := none, lastUpdated := none, others := [] }

/-- The three field writes of lines 324-326 on a record; `date` is `new Date()`. -/
def stamp (update : Update) (date : ℕ) (bus : Bus) : Bus :=
  { bus with lat := update.lat, lon := update.lon, lastUpdated := some date }

/-- Store part of `handleLocationUpdate` (lines 320-326). -/
def mergeIntoStore (busesData : Table Bus) (update : Update) (date : ℕ) : Table Bus :=
  let created :=
    if !busesData.truthy (jsString update.bus_id) then
      busesData.set (jsString update.bus_id) (freshBus update)
    else busesData
  created.modify (jsString update.bus_id) (stamp update date)

/-- The call `updateMapMarker(bus_id, lat, lon, busesData[bus_id].route_stops)`
of line 328, made by `handleLocationUpdate` after its writes to the store: the
tables it leaves and whether it threw. An exception thrown here escapes from
`handleLocationUpdate`. -/
def markerUpdate (s : State) (update : Update) (date : ℕ) (perfNow : ℚ) : Outcome :=
  let busesData := mergeIntoStore s.busesData update date
  updateMapMarker { s with busesData := busesData } update.bus_id update.lat update.lon
    ((busesData.get (jsString update.bus_id)).bind Bus.route_stops) perfNow

/-- Streaming update handler, `handleLocationUpdate`: the tables as the call
leaves them, whether it returns or an exception escapes from the marker
placement or from the list rendering that follows it (both come after the
writes to the store, and the list rendering writes to no table). -/
def handleLocationUpdate (s : State) (update : Update) (date : ℕ) (perfNow : ℚ) : State :=
  (markerUpdate s update date perfNow).state

/-- Progress computed by `animateMarkers` (lines 360-367). -/
def progress (anim : Anim) (time : ℚ) : ℚ :=
  let elapsed := time - anim.startTime
  let p := elapsed / anim.duration
  if p > 1 then 1 else p

/-- Linear interpolation of one coordinate (lines 370-371). -/
def lerp (start target p : ℚ) : ℚ := start + (target - start) * p

/-- Interpolated position between two coordinate objects at progress `p`. -/
def interpolate (start target : LatLng) (p : ℚ) : LatLng :=
  ⟨lerp start.lat target.lat p, lerp start.lng target.lng p⟩

/-- Body of the `forEach` callback of `animateMarkers` for one key. Reading
`anim.targetLatLng.lat` throws when there is no target object, and so does the
call of `setLatLng` on an inherited member read by `busMarkers[busId]`. -/
def animateOne (s : State) (time : ℚ) (busId : String) : Outcome :=
  match s.busAnimations.get busId with
  | none => { state := s, raised := false }
  | some anim =>
    match anim.targetLatLng with
    | none => { state := s, raised := true }
    | some target =>
      let p := progress anim time
      let current := interpolate anim.startLatLng target p
      let anims := if p = 1 then s.busAnimations.erase busId else s.busAnimations
      match s.busMarkers.get busId with
      | some _ =>
        let markers := s.busMarkers.modify busId (fun m => { m with latlng := current })
        { state := { s with busMarkers := markers, busAnimations := anims }
          raised := false }
      | none =>
        if inherited busId then { state := s, raised := true }
        else { state := { s with busAnimations := anims }, raised := false }

/-- The `forEach` over a list of keys: an exception ends the iteration. -/
def animateKeys (time : ℚ) : List String → State → Outcome
  | [], s => { state := s, raised := false }
  | k :: ks, s =>
    let o := animateOne s time k
    if o.raised then o else animateKeys time ks o.state

/-- One animation frame, `animateMarkers(time)`. -/
def animateMarkers (s : State) (time : ℚ) : Outcome :=
  animateKeys time s.busAnimations.keys s

/-- Bus deletion, `deleteBus(busId)`: `confirmed` is the answer to the
confirmation dialog, `res` the outcome of the DELETE request. -/
def deleteBus (s : State) (busId : String) (confirmed : Bool) (res : Fetch) : State :=
  if confirmed then
    match res with
    | Fetch.ok =>
      { s with
        busesData := s.busesData.erase busId
        busMarkers :=
          if s.busMarkers.truthy busId then s.busMarkers.erase busId
          else s.busMarkers }
    | _ => s
  else s

/-- A batch of streaming updates applied in delivery order, each with its two
clock readings. -/
def applyUpdates (s : State) (updates : List (Update × ℕ × ℚ)) : State :=
  updates.foldl (fun st u => handleLocationUpdate st u.1 u.2.1 u.2.2) s

/-! ## Vocabulary of the specification -/

/-- Streaming update carrying all of `bus_id`, `lat` and `lon`. -/
def wellFormed (u : Update) : Bool :=
  u.bus_id.isSome && u.lat.isSome && u.lon.isSome

/-- Bus record with a position: both `lat` and `lon` are defined. -/
def hasPosition (bus : Bus) : Bool := bus.lat.isSome && bus.lon.isSome

/-- Bus record with a `lastUpdated` timestamp. -/
def hasTimestamp (bus : Bus) : Bool := bus.lastUpdated.isSome

/-- Roster record with only an identifier. -/
def rosterBus (id : String) : Bus :=
  { bus_id := some id, driver_name := none, route_stops := none,
    lat := none, lon := none, lastUpdated := none, others := [] }

/-- Streaming update with identifier and position and no route. -/
def positionUpdate (id : String) (lat lon : ℚ) : Update :=
  { bus_id := some id, lat := some lat, lon := some lon, route := none }

/-- Clamp of a number to the interval from `lo` to `hi`. -/
def clamp (x lo hi : ℚ) : ℚ := max lo (min x hi)

/-- Progress as the specification words it:
`clamp((now - startTime) / duration, 0, 1)`. -/
def specProgress (anim : Anim) (now : ℚ) : ℚ :=
  clamp ((now - anim.startTime) / anim.duration) 0 1

/-- Events that change the store: roster merge, streaming update, local
addition, deletion. -/
inductive Event where
  | snapshot (response : Option (List Bus))
  | update (u : Update) (date : ℕ) (perfNow : ℚ)
  | addBus (bus_id driver_name route_stops : String) (res : Fetch)
  | delete (busId : String) (confirmed : Bool) (res : Fetch)

/-- Effect of one event on the tables. -/
def step (s : State) : Event → State
  | Event.snapshot response => fetchInitialBuses s response
  | Event.update u date perfNow => handleLocationUpdate s u date perfNow
  | Event.addBus bus_id driver_name route_stops res =>
    addBusSubmit s bus_id driver_name route_stops res
  | Event.delete busId confirmed res => deleteBus s busId confirmed res

/-- State reached from `s` by a sequence of events. -/
def run (s : State) (events : List Event) : State := events.foldl step s

/-- Events under which position and timestamp stay paired: roster records that
carry a position exactly when they carry a timestamp, and streaming updates
that carry both `lat` and `lon`. -/
def paired : Event → Bool
  | Event.snapshot (some buses) => buses.all (fun b => hasPosition b == hasTimestamp b)
  | Event.update u _ _ => u.lat.isSome && u.lon.isSome
  | _ => true

/-- Every record of the store has a position exactly when it has a timestamp. -/
def StorePaired (d : Table Bus) : Prop :=
  ∀ k bus, d.get k = some bus → hasPosition bus = hasTimestamp bus

/-! ## Example data -/

/-- Store holding "B1" with route label "R1" and no position. -/
def labelledState : State :=
  ⟨[("B1", { rosterBus "B1" with route_stops := some "R1" })], [], []⟩

/-- Update for "B1" at (10, 20) carrying the route "R2". -/
def reroutedUpdate : Update :=
  { bus_id := some "B1", lat := some 10, lon := some 20, route := some "R2" }

/-- Scenario of the specification: roster `[B1]`, then "B1" reported at (10, 20),
then at (10.001, 20.001) when `performance.now()` reads `t`. -/
def scenarioState (t : ℚ) : State :=
  handleLocationUpdate
    (handleLocationUpdate (fetchInitialBuses State.empty (some [rosterBus "B1"]))
      (positionUpdate "B1" 10 20) 0 (t - 1000))
    (positionUpdate "B1" (10001 / 1000) (20001 / 1000)) 1000 t

/-- Glide from (10, 20) to (10.001, 20.001) registered at time 2000. -/
def glide : Anim :=
  { startLatLng := ⟨10, 20⟩, targetLatLng := some ⟨10001 / 1000, 20001 / 1000⟩,
    startTime := 2000, duration := 1000 }

/-- The scenario state with the second update at time 2000, after a confirmed
and accepted deletion of "B1". -/
def deletedState : State := deleteBus (scenarioState 2000) "B1" true Fetch.ok

/-- The deleted state after "B1" reports again, at (50, 60), at time 2100. -/
def reAddedState : State :=
  handleLocationUpdate deletedState (positionUpdate "B1" 50 60) 2000 2100

/-- Update for "B1" that lacks `lat`. -/
def latlessUpdate : Update :=
  { bus_id := some "B1", lat := none, lon := some 20, route := none }

/-- Roster whose record of "B1" carries a position and no timestamp. -/
def positionedRoster : List Bus :=
  [{ rosterBus "B1" with lat := some 10, lon := some 20 }]

/-- A session: roster `[B1]`, "B1" reports at (10, 20), "B2" is added locally and
then deleted. -/
def sessionEvents : List Event :=
  [Event.snapshot (some [rosterBus "B1"]), Event.update (positionUpdate "B1" 10 20) 3 0,
   Event.addBus "B2" "driver" "route" Fetch.ok, Event.delete "B2" true Fetch.ok]

/-- Update that lacks `bus_id` and `lat`. -/
def anonymousUpdate : Update :=
  { bus_id := none, lat := none, lon := some 20, route := none }

end Tracko

namespace Tracko

/-! ## Dictionary laws -/

namespace Table

variable {α : Type}

theorem get_set_self (t : Table α) (k : String) (v : α) : (t.set k v).get k = some v := by
  induction t with
  | nil => simp [set, get]
  | cons p t ih =>
    obtain ⟨k', v'⟩ := p
    by_cases h : k' = k
    · simp [set, get, h]
    · simp [set, get, h, ih]

theorem get_set_of_ne (t : Table α) {k k' : String} (h : k ≠ k') (v : α) :
    (t.set k v).get k' = t.get k' := by
  induction t with
  | nil => simp [set, get, h]
  | cons p t ih =>
    obtain ⟨k₀, v₀⟩ := p
    by_cases h₀ : k₀ = k
    · subst h₀
      simp [set, get, h]
    · by_cases h₁ : k₀ = k'
      · subst h₁
        simp [set, get, h₀]
      · simp [set, get, h₀, h₁, ih]

theorem get_modify_self (t : Table α) (k : String) (f : α → α) :
    (t.modify k f).get k = (t.get k).map f := by
  induction t with
  | nil => simp [modify, get]
  | cons p t ih =>
    obtain ⟨k', v'⟩ := p
    by_cases h : k' = k
    · simp [modify, get, h]
    · simp [modify, get, h, ih]

theorem get_modify_of_ne (t : Table α) {k k' : String} (h : k ≠ k') (f : α → α) :
    (t.modify k f).get k' = t.get k' := by
  induction t with
  | nil => simp [modify, get]
  | cons p t ih =>
    obtain ⟨k₀, v₀⟩ := p
    by_cases h₀ : k₀ = k
    · subst h₀
      simp [modify, get, h]
    · by_cases h₁ : k₀ = k'
      · subst h₁
        simp [modify, get, h₀]
      · simp [modify, get, h₀, h₁, ih]

/-- A field write through a key that is not an own property leaves the table
as it is. -/
theorem modify_of_get_none (t : Table α) (k : String) (f : α → α) (h : t.get k = none) :
    t.modify k f = t := by
  induction t with
  | nil => rfl
  | cons p t ih =>
    obtain ⟨k', v'⟩ := p
    by_cases hk : k' = k
    · simp [get, hk] at h
    · simp only [get, hk, if_false] at h
      simp [modify, hk, ih h]

theorem get_erase_self (t : Table α) (k : String) : (t.erase k).get k = none := by
  induction t with
  | nil => simp [erase, get]
  | cons p t ih =>
    obtain ⟨k', v'⟩ := p
    by_cases h : k' = k
    · simpa [erase, List.filter, h] using ih
    · simpa [erase, List.filter, h, get] using ih

theorem get_erase_of_ne (t : Table α) {k k' : String} (h : k ≠ k') :
    (t.erase k).get k' = t.get k' := by
  induction t with
  | nil => simp [erase, get]
  | cons p t ih =>
    obtain ⟨k₀, v₀⟩ := p
    by_cases h₀ : k₀ = k
    · subst h₀
      simpa [erase, List.filter, get, h] using ih
    · by_cases h₁ : k₀ = k'
      · subst h₁
        simp [erase, List.filter, get, h₀]
      · simpa [erase, List.filter, get, h₀, h₁] using ih

/-- Removing a key that is not an own property leaves the table as it is. -/
theorem erase_of_get_none (t : Table α) (k : String) (h : t.get k = none) :
    t.erase k = t := by
  induction t with
  | nil => rfl
  | cons p t ih =>
    obtain ⟨k', v'⟩ := p
    by_cases hk : k' = k
    · simp [get, hk] at h
    · simp only [get, hk, if_false] at h
      have := ih h
      simp only [erase] at this ⊢
      rw [List.filter_cons_of_pos (by simpa using hk), this]

theorem truthy_of_get (t : Table α) {k : String} {v : α} (h : t.get k = some v) :
    t.truthy k = true := by
  simp [truthy, h]

theorem truthy_of_inherited (t : Table α) {k : String} (h : inherited k = true) :
    t.truthy k = true := by
  simp [truthy, h]

theorem truthy_eq_false (t : Table α) {k : String} (hg : t.get k = none)
    (hi : inherited k = false) : t.truthy k = false := by
  simp [truthy, hg, hi]

end Table

end Tracko

namespace Tracko

/-! ## The store under a streaming update -/

/-- What the store holds under the key of an update after lines 320-326: the
stamped own record, a stamped fresh record when the key was free, and nothing
when the key reads an inherited member. -/
theorem get_mergeIntoStore_self (d : Table Bus) (u : Update) (date : ℕ) :
    (mergeIntoStore d u date).get (jsString u.bus_id) =
      match d.get (jsString u.bus_id) with
      | some bus => some (stamp u date bus)
      | none =>
        if inherited (jsString u.bus_id) then none else some (stamp u date (freshBus u)) := by
  unfold mergeIntoStore
  cases h : d.get (jsString u.bus_id) with
  | some bus => simp [Table.get_modify_self, Table.truthy, h]
  | none =>
    cases hi : inherited (jsString u.bus_id) with
    | true => simp [Table.get_modify_self, Table.truthy, h, hi]
    | false => simp [Table.get_modify_self, Table.get_set_self, Table.truthy, h, hi]

theorem get_mergeIntoStore_of_ne (d : Table Bus) (u : Update) (date : ℕ) {k : String}
    (hk : jsString u.bus_id ≠ k) : (mergeIntoStore d u date).get k = d.get k := by
  unfold mergeIntoStore
  by_cases h : d.truthy (jsString u.bus_id) = true
  · simp [h, Table.get_modify_of_ne _ hk]
  · simp [h, Table.get_modify_of_ne _ hk, Table.get_set_of_ne _ hk]

/-- An update whose key reads an inherited member writes nothing to the store. -/
theorem mergeIntoStore_of_inherited (d : Table Bus) (u : Update) (date : ℕ)
    (hg : d.get (jsString u.bus_id) = none) (hi : inherited (jsString u.bus_id) = true) :
    mergeIntoStore d u date = d := by
  unfold mergeIntoStore
  simp [Table.truthy, hi, Table.modify_of_get_none _ _ _ hg]

theorem updateMapMarker_busesData (s : State) (busId : Option String) (lat lon : Option ℚ)
    (routeInfo : Option String) (perfNow : ℚ) :
    (updateMapMarker s busId lat lon routeInfo perfNow).state.busesData = s.busesData := by
  unfold updateMapMarker
  cases s.busMarkers.get (jsString busId) with
  | some m => rfl
  | none =>
    cases inherited (jsString busId) with
    | true => rfl
    | false => cases lat <;> cases lon <;> rfl

theorem handleLocationUpdate_busesData (s : State) (u : Update) (date : ℕ) (perfNow : ℚ) :
    (handleLocationUpdate s u date perfNow).busesData = mergeIntoStore s.busesData u date := by
  unfold handleLocationUpdate markerUpdate
  simp [updateMapMarker_busesData]

/-- An own record stays an own record, and an inherited member stays inherited. -/
theorem truthy_mergeIntoStore (d : Table Bus) (u : Update) (date : ℕ) (k : String)
    (h : d.truthy k = true) : (mergeIntoStore d u date).truthy k = true := by
  by_cases hk : jsString u.bus_id = k
  · subst hk
    cases hg : d.get (jsString u.bus_id) with
    | some bus => simp [Table.truthy, get_mergeIntoStore_self, hg]
    | none =>
      have hi : inherited (jsString u.bus_id) = true := by simpa [Table.truthy, hg] using h
      exact Table.truthy_of_inherited _ hi
  · simpa [Table.truthy, get_mergeIntoStore_of_ne _ _ _ hk] using h

theorem truthy_applyUpdates (updates : List (Update × ℕ × ℚ)) (s : State) (k : String)
    (h : s.busesData.truthy k = true) :
    (applyUpdates s updates).busesData.truthy k = true := by
  induction updates generalizing s with
  | nil => exact h
  | cons u us ih =>
    unfold applyUpdates
    rw [List.foldl_cons]
    apply ih
    rw [handleLocationUpdate_busesData]
    exact truthy_mergeIntoStore _ _ _ _ h

/-- For an id that is not an inherited name, the last of two updates for the id
decides the stored position. -/
theorem last_write_of_not_inherited (s : State) (id : String) (U1 U2 : Update) (d1 d2 : ℕ)
    (t1 t2 : ℚ) (hid2 : U2.bus_id = some id) (hi : inherited id = false) :
    ∃ bus,
      (handleLocationUpdate (handleLocationUpdate s U1 d1 t1) U2 d2 t2).busesData.get id
        = some bus ∧ bus.lat = U2.lat ∧ bus.lon = U2.lon := by
  have hk : jsString U2.bus_id = id := by simp [hid2, jsString]
  rw [handleLocationUpdate_busesData, ← hk, get_mergeIntoStore_self]
  rw [← hk] at hi
  cases (handleLocationUpdate s U1 d1 t1).busesData.get (jsString U2.bus_id) with
  | some bus => exact ⟨_, rfl, rfl, rfl⟩
  | none => simp only [hi]; exact ⟨_, rfl, rfl, rfl⟩

/-- C1, the code at the failing input. "constructor" names a member inherited
from `Object.prototype`. On the empty state two well-formed updates for
"constructor", at (1, 2) and then at (3, 4), store no record: the guard of
line 320 reads the inherited member, the writes of lines 324-325 go to that
member, the marker placement throws, and all three tables are still empty, so
there is no stored position equal to (3, 4). -/
theorem C1_inherited_id_stores_nothing :
    inherited "constructor" = true ∧
    wellFormed (positionUpdate "constructor" 1 2) = true ∧
    wellFormed (positionUpdate "constructor" 3 4) = true ∧
    handleLocationUpdate
        (handleLocationUpdate State.empty (positionUpdate "constructor" 1 2) 0 0)
        (positionUpdate "constructor" 3 4) 1 1 = State.empty ∧
    (handleLocationUpdate
        (handleLocationUpdate State.empty (positionUpdate "constructor" 1 2) 0 0)
        (positionUpdate "constructor" 3 4) 1 1).busesData.get "constructor" = none ∧
    (markerUpdate State.empty (positionUpdate "constructor" 3 4) 1 1).raised = true := by
  have hi : inherited "constructor" = true := by decide
  have h : ∀ (lat lon : ℚ) (d : ℕ) (t : ℚ),
      markerUpdate State.empty (positionUpdate "constructor" lat lon) d t
        = ⟨State.empty, true⟩ := by
    intro lat lon d t
    simp [markerUpdate, updateMapMarker, mergeIntoStore, State.empty, Table.get, Table.truthy,
      Table.modify, positionUpdate, jsString, hi]
  have h1 : ∀ (lat lon : ℚ) (d : ℕ) (t : ℚ),
      handleLocationUpdate State.empty (positionUpdate "constructor" lat lon) d t
        = State.empty := by
    intro lat lon d t
    simp [handleLocationUpdate, h]
  refine ⟨hi, by simp [wellFormed, positionUpdate], by simp [wellFormed, positionUpdate],
    ?_, ?_, ?_⟩
  · rw [h1, h1]
  · rw [h1, h1]; rfl
  · rw [h]

end Tracko

namespace Tracko

/-! ## Roster merge -/

theorem get_mergeBus_of_ne (d : Table Bus) (bus : Bus) {k : String}
    (hk : jsString bus.bus_id ≠ k) : (mergeBus d bus).get k = d.get k := by
  unfold mergeBus
  split
  · exact Table.get_set_of_ne _ hk _
  · rfl

theorem get_mergeBus_self (d : Table Bus) (bus : Bus) :
    (mergeBus d bus).get (jsString bus.bus_id) =
      (d.get (jsString bus.bus_id)).orElse
        (fun _ => if inherited (jsString bus.bus_id) then none else some bus) := by
  unfold mergeBus
  cases h : d.get (jsString bus.bus_id) with
  | some b => simp [Table.truthy, h]
  | none =>
    cases hi : inherited (jsString bus.bus_id) with
    | true => simp [Table.truthy, h, hi]
    | false => simp [Table.truthy, h, hi, Table.get_set_self]

/-- After the roster loop, a key reads as before when it was an own property,
stays without own property when it names an inherited member, and otherwise
holds the first roster record with that key. -/
theorem get_foldl_mergeBus (buses : List Bus) (d : Table Bus) (k : String) :
    (buses.foldl mergeBus d).get k =
      (d.get k).orElse (fun _ =>
        if inherited k then none
        else buses.find? (fun b => decide (jsString b.bus_id = k))) := by
  induction buses generalizing d with
  | nil => cases h : d.get k <;> simp [h]
  | cons b bs ih =>
    rw [List.foldl_cons, ih]
    by_cases hb : jsString b.bus_id = k
    · subst hb
      rw [get_mergeBus_self]
      cases h : d.get (jsString b.bus_id) with
      | some x => simp
      | none =>
        cases hi : inherited (jsString b.bus_id) <;> simp [List.find?, hi]
    · rw [get_mergeBus_of_ne _ _ hb]
      simp [List.find?, hb]

/-- The roster loop changes nothing when every roster key already reads truthy. -/
theorem foldl_mergeBus_of_truthy (buses : List Bus) (d : Table Bus)
    (h : ∀ b ∈ buses, d.truthy (jsString b.bus_id) = true) :
    buses.foldl mergeBus d = d := by
  induction buses with
  | nil => rfl
  | cons b bs ih =>
    have hb : mergeBus d b = d := by
      have := h b (List.mem_cons_self _ _)
      simp [mergeBus, this]
    rw [List.foldl_cons, hb]
    exact ih (fun b' hb' => h b' (List.mem_cons_of_mem _ hb'))

theorem truthy_foldl_mergeBus (buses : List Bus) (d : Table Bus) :
    ∀ b ∈ buses, (buses.foldl mergeBus d).truthy (jsString b.bus_id) = true := by
  intro b hb
  cases hi : inherited (jsString b.bus_id) with
  | true => exact Table.truthy_of_inherited _ hi
  | false =>
    have hfind : (buses.find? (fun r => decide (jsString r.bus_id = jsString b.bus_id))).isSome
        = true := by
      rw [List.find?_isSome]
      exact ⟨b, hb, by simp⟩
    unfold Table.truthy
    rw [get_foldl_mergeBus]
    cases d.get (jsString b.bus_id) with
    | some x => simp
    | none => simp [hi, hfind]

/-- For ids that are not inherited names the roster merge fills in: a free
roster key holds the first roster record with that key afterwards. Own records
are kept whatever their key. -/
theorem snapshot_fill_in_of_not_inherited (s : State) (buses : List Bus) :
    (∀ k bus, s.busesData.get k = some bus →
        (fetchInitialBuses s (some buses)).busesData.get k = some bus) ∧
    (∀ b ∈ buses, s.busesData.get (jsString b.bus_id) = none →
        inherited (jsString b.bus_id) = false →
        ∃ first, buses.find? (fun r => decide (jsString r.bus_id = jsString b.bus_id)) = some first ∧
          (fetchInitialBuses s (some buses)).busesData.get (jsString b.bus_id) = some first) ∧
    (fetchInitialBuses s (some buses)).busMarkers = s.busMarkers ∧
    (fetchInitialBuses s (some buses)).busAnimations = s.busAnimations := by
  refine ⟨?_, ?_, rfl, rfl⟩
  · intro k bus hk
    show (buses.foldl mergeBus s.busesData).get k = some bus
    rw [get_foldl_mergeBus, hk]
    rfl
  · intro b hb hfree hi
    have hsome : (buses.find? (fun r => decide (jsString r.bus_id = jsString b.bus_id))).isSome
        = true := by
      rw [List.find?_isSome]
      exact ⟨b, hb, by simp⟩
    obtain ⟨first, hfirst⟩ := Option.isSome_iff_exists.mp hsome
    refine ⟨first, hfirst, ?_⟩
    show (buses.foldl mergeBus s.busesData).get (jsString b.bus_id) = some first
    rw [get_foldl_mergeBus, hfree]
    simpa [hi] using hfirst

/-- C2, the code at the failing input. On the empty store the roster
`[{bus_id: "constructor"}]` has an id that is not in the store, and after the
merge of `fetchInitialBuses` the id is still not in the store: the guard of
line 284 reads the member inherited from `Object.prototype` and nothing is
inserted. -/
theorem C2_inherited_id_not_filled :
    inherited "constructor" = true ∧
    State.empty.busesData.get (jsString (rosterBus "constructor").bus_id) = none ∧
    fetchInitialBuses State.empty (some [rosterBus "constructor"]) = State.empty ∧
    (fetchInitialBuses State.empty (some [rosterBus "constructor"])).busesData.get
        "constructor" = none := by
  have hi : inherited "constructor" = true := by decide
  have h : fetchInitialBuses State.empty (some [rosterBus "constructor"]) = State.empty := by
    simp [fetchInitialBuses, mergeBus, State.empty, Table.truthy, Table.get, rosterBus,
      jsString, hi]
  refine ⟨hi, rfl, h, ?_⟩
  rw [h]
  rfl

/-- C3. Idempotent roster merge: merging a roster, applying any sequence of
streaming updates and merging the same roster again gives the state reached
before the second merge; in particular merging twice equals merging once. -/
theorem C3_snapshot_idempotent (s : State) (S : List Bus) (updates : List (Update × ℕ × ℚ)) :
    fetchInitialBuses (applyUpdates (fetchInitialBuses s (some S)) updates) (some S)
        = applyUpdates (fetchInitialBuses s (some S)) updates ∧
    fetchInitialBuses (fetchInitialBuses s (some S)) (some S) = fetchInitialBuses s (some S) := by
  have key : ∀ us : List (Update × ℕ × ℚ),
      fetchInitialBuses (applyUpdates (fetchInitialBuses s (some S)) us) (some S)
        = applyUpdates (fetchInitialBuses s (some S)) us := by
    intro us
    have hpres : ∀ b ∈ S,
        (applyUpdates (fetchInitialBuses s (some S)) us).busesData.truthy
          (jsString b.bus_id) = true := by
      intro b hb
      apply truthy_applyUpdates
      exact truthy_foldl_mergeBus S s.busesData b hb
    show ({ applyUpdates (fetchInitialBuses s (some S)) us with
            busesData := S.foldl mergeBus
              (applyUpdates (fetchInitialBuses s (some S)) us).busesData } : State) = _
    rw [foldl_mergeBus_of_truthy S _ hpres]
  exact ⟨key updates, key []⟩

end Tracko

namespace Tracko

/-! ## Route label under a streaming update -/

theorem inherited_B1 : inherited "B1" = false := by decide

theorem inherited_B2 : inherited "B2" = false := by decide

theorem inherited_undefined : inherited "undefined" = false := by decide

/-- The label given to a record created by an update (line 321): the route of
the update when it is provided and non-empty, and "Unknown" otherwise. -/
theorem freshBus_route_stops :
    (freshBus ⟨some "B1", some 10, some 20, some "R2"⟩).route_stops = some "R2" ∧
    (freshBus ⟨some "B1", some 10, some 20, some ""⟩).route_stops = some "Unknown" ∧
    (freshBus ⟨some "B1", some 10, some 20, none⟩).route_stops = some "Unknown" := by
  simp [freshBus, orElse]

/-- C4, refuted as stated: "B1" is stored with route label "R1"; an update for
"B1" carrying the non-empty route "R2" leaves the label at "R1". -/
theorem C4_route_label_counterexample :
    reroutedUpdate.route = some "R2" ∧
    ((handleLocationUpdate labelledState reroutedUpdate 5 0).busesData.get "B1").map
        Bus.route_stops = some (some "R1") ∧
    ((handleLocationUpdate labelledState reroutedUpdate 5 0).busesData.get "B1").map
        Bus.route_stops ≠ some reroutedUpdate.route := by
  simp [handleLocationUpdate_busesData, mergeIntoStore, labelledState, reroutedUpdate,
    Table.get, Table.truthy, Table.modify, jsString, rosterBus, stamp]

/-- C4, amended. For every record already in the store, `handleLocationUpdate`
overwrites `lat`, `lon` and `lastUpdated` with the values of the update and the
date of the call, and leaves every other field, the route label included, as it
was, whatever route the update carries. -/
theorem C4_route_label_kept (s : State) (u : Update) (date : ℕ) (perfNow : ℚ) (bus : Bus)
    (h : s.busesData.get (jsString u.bus_id) = some bus) :
    (handleLocationUpdate s u date perfNow).busesData.get (jsString u.bus_id)
      = some { bus with lat := u.lat, lon := u.lon, lastUpdated := some date } := by
  rw [handleLocationUpdate_busesData, get_mergeIntoStore_self, h]
  rfl

/-- Witness of the amended C4: the record of "B1" labelled "R1" keeps its label
under an update that carries the route "R2". -/
theorem C4_route_label_kept_witness :
    labelledState.busesData.get (jsString reroutedUpdate.bus_id)
      = some { rosterBus "B1" with route_stops := some "R1" } ∧
    (handleLocationUpdate labelledState reroutedUpdate 5 0).busesData.get
        (jsString reroutedUpdate.bus_id)
      = some { bus_id := some "B1", driver_name := none, route_stops := some "R1",
               lat := some 10, lon := some 20, lastUpdated := some 5, others := [] } :=
  ⟨by simp [labelledState, reroutedUpdate, Table.get, jsString],
   C4_route_label_kept labelledState reroutedUpdate 5 0
      { rosterBus "B1" with route_stops := some "R1" }
      (by simp [labelledState, reroutedUpdate, Table.get, jsString])⟩

/-! ## Interpolation -/

theorem progress_scenario (t : ℚ) (start : LatLng) (target : Option LatLng) (dt : ℚ)
    (h : dt ≤ 1000) : progress ⟨start, target, t, 1000⟩ (t + dt) = dt / 1000 := by
  have hle : ¬ dt / 1000 > 1 := by
    intro hgt
    rw [gt_iff_lt, lt_div_iff₀ (by norm_num)] at hgt
    linarith
  simp only [progress, add_sub_cancel_left]
  rw [if_neg hle]

/-- C5. Interpolation endpoints and convexity, over exact arithmetic: the
position formula of `animateMarkers` gives the start at progress 0, the target
at progress 1, and for 0 < p < 1 each coordinate equals
(1 - p) * start + p * target with both weights strictly positive. In the
scenario of the specification the frame 500 ms after the second update puts the
marker at (10.0005, 20.0005), and the frame at 1000 ms at (10.001, 20.001). -/
theorem C5_interpolation (start target : LatLng) :
    interpolate start target 0 = start ∧
    interpolate start target 1 = target ∧
    (∀ p : ℚ, 0 < p → p < 1 →
      (interpolate start target p).lat = (1 - p) * start.lat + p * target.lat ∧
      (interpolate start target p).lng = (1 - p) * start.lng + p * target.lng ∧
      0 < 1 - p ∧ 0 < p) ∧
    (∀ t : ℚ,
      ((animateMarkers (scenarioState t) (t + 500)).state.busMarkers.get "B1").map Marker.latlng
        = some ⟨100005 / 10000, 200005 / 10000⟩ ∧
      ((animateMarkers (scenarioState t) (t + 1000)).state.busMarkers.get "B1").map Marker.latlng
        = some ⟨10001 / 1000, 20001 / 1000⟩) := by
  refine ⟨?_, ?_, ?_, ?_⟩
  · simp [interpolate, lerp]
  · simp [interpolate, lerp]
  · intro p h0 h1
    refine ⟨?_, ?_, by linarith, h0⟩
    · simp only [interpolate, lerp]; ring
    · simp only [interpolate, lerp]; ring
  · intro t
    have h500 := progress_scenario t ⟨10, 20⟩ (some ⟨10001 / 1000, 20001 / 1000⟩) 500
      (by norm_num)
    have h1000 := progress_scenario t ⟨10, 20⟩ (some ⟨10001 / 1000, 20001 / 1000⟩) 1000
      (by norm_num)
    constructor
    · simp [animateMarkers, animateKeys, animateOne, scenarioState, handleLocationUpdate,
        markerUpdate, updateMapMarker, mergeIntoStore, fetchInitialBuses, mergeBus, State.empty,
        Table.get, Table.truthy, Table.set, Table.modify, Table.keys, Table.erase,
        positionUpdate, rosterBus, jsString, latLng, h500, interpolate, lerp, stamp,
        inherited_B1]
      norm_num
    · simp [animateMarkers, animateKeys, animateOne, scenarioState, handleLocationUpdate,
        markerUpdate, updateMapMarker, mergeIntoStore, fetchInitialBuses, mergeBus, State.empty,
        Table.get, Table.truthy, Table.set, Table.modify, Table.keys, Table.erase,
        positionUpdate, rosterBus, jsString, latLng, h1000, interpolate, lerp, stamp,
        inherited_B1]

/-- Witness of C5 at progress 1/2 between (10, 20) and (12, 24). -/
theorem C5_interpolation_witness :
    (interpolate ⟨10, 20⟩ ⟨12, 24⟩ (1 / 2)).lat = (1 - 1 / 2) * 10 + 1 / 2 * 12 ∧
    (interpolate ⟨10, 20⟩ ⟨12, 24⟩ (1 / 2)).lng = (1 - 1 / 2) * 20 + 1 / 2 * 24 ∧
    (0 : ℚ) < 1 - 1 / 2 ∧ (0 : ℚ) < 1 / 2 :=
  (C5_interpolation ⟨10, 20⟩ ⟨12, 24⟩).2.2.1 (1 / 2) (by norm_num) (by norm_num)

end Tracko

namespace Tracko

/-! ## Progress -/

/-- From the start of a glide on, the progress of `animateMarkers` is the
clamped progress of the specification. -/
theorem progress_eq_specProgress (anim : Anim) (time : ℚ) (hd : 0 < anim.duration)
    (ht : anim.startTime ≤ time) : progress anim time = specProgress anim time := by
  have h0 : 0 ≤ (time - anim.startTime) / anim.duration :=
    div_nonneg (sub_nonneg.mpr ht) hd.le
  unfold progress specProgress clamp
  by_cases h : (time - anim.startTime) / anim.duration > 1
  · simp only [h, if_true]
    rw [min_eq_right (le_of_lt h), max_eq_right (by norm_num)]
  · simp only [h, if_false]
    rw [min_eq_left (not_lt.mp h), max_eq_right h0]

/-- The progress of `animateMarkers` never exceeds 1. -/
theorem progress_le_one (anim : Anim) (time : ℚ) : progress anim time ≤ 1 := by
  unfold progress
  by_cases h : (time - anim.startTime) / anim.duration > 1
  · simp [h]
  · simp only [h, if_false]
    exact not_lt.mp h

/-- C6, the code at the failing input: in the scenario state whose glide starts
at time 2000, a frame with time 1990 computes progress -1/100 where the clamp of
the specification gives 0, and moves the marker to (9.99999, 19.99999), outside
the segment from (10, 20) to (10.001, 20.001). -/
theorem C6_progress_below_zero :
    (scenarioState 2000).busAnimations.get "B1" = some glide ∧
    progress glide 1990 = -1 / 100 ∧
    specProgress glide 1990 = 0 ∧
    ((animateMarkers (scenarioState 2000) 1990).state.busMarkers.get "B1").map Marker.latlng
      = some ⟨999999 / 100000, 1999999 / 100000⟩ := by
  have hp : progress glide 1990 = -1 / 100 := by
    simp only [progress, glide]
    norm_num
  have hg : (scenarioState 2000).busAnimations.get "B1" = some glide := by
    simp [scenarioState, handleLocationUpdate, markerUpdate, updateMapMarker, mergeIntoStore,
      fetchInitialBuses, mergeBus, State.empty, Table.get, Table.truthy, Table.set,
      Table.modify, positionUpdate, rosterBus, jsString, latLng, glide, stamp, inherited_B1]
  refine ⟨hg, hp, ?_, ?_⟩
  · simp only [specProgress, clamp, glide]
    norm_num
  · have hp2 : progress ⟨⟨10, 20⟩, some ⟨10001 / 1000, 20001 / 1000⟩, 2000, 1000⟩ 1990
        = -1 / 100 := hp
    simp [animateMarkers, animateKeys, animateOne, scenarioState, handleLocationUpdate,
      markerUpdate, updateMapMarker, mergeIntoStore, fetchInitialBuses, mergeBus, State.empty,
      Table.get, Table.truthy, Table.set, Table.modify, Table.keys, Table.erase,
      positionUpdate, rosterBus, jsString, latLng, hp2, interpolate, lerp, stamp, inherited_B1]
    norm_num

/-! ## Deletion -/

/-- A confirmed and accepted `deleteBus` clears the store entry and the marker of
the id and leaves `busAnimations` as it was. -/
theorem deleteBus_tables (s : State) (busId : String) :
    (deleteBus s busId true Fetch.ok).busesData.get busId = none ∧
    (deleteBus s busId true Fetch.ok).busMarkers.get busId = none ∧
    (deleteBus s busId true Fetch.ok).busAnimations = s.busAnimations := by
  refine ⟨Table.get_erase_self _ _, ?_, rfl⟩
  simp only [deleteBus, if_true]
  cases h : s.busMarkers.get busId with
  | none =>
    by_cases ht : s.busMarkers.truthy busId = true
    · simp [ht, Table.get_erase_self]
    · simp [ht, h]
  | some m => simp [Table.truthy, h, Table.get_erase_self]

/-- C7, the code at the failing input. In the scenario state a glide of "B1"
towards (10.001, 20.001), started at time 2000, is pending. After the confirmed,
accepted `deleteBus("B1")` the store entry and the marker are gone but the glide
is still in `busAnimations`; when "B1" then reports at (50, 60) the new marker is
placed there, and the next frame, at time 2500, moves it to (10.0005, 20.0005). -/
theorem C7_stale_glide_after_delete :
    deletedState.busesData.get "B1" = none ∧
    deletedState.busMarkers.get "B1" = none ∧
    deletedState.busAnimations.get "B1"
      = some ⟨⟨10, 20⟩, some ⟨10001 / 1000, 20001 / 1000⟩, 2000, 1000⟩ ∧
    (reAddedState.busMarkers.get "B1").map Marker.latlng = some ⟨50, 60⟩ ∧
    ((animateMarkers reAddedState 2500).state.busMarkers.get "B1").map Marker.latlng
      = some ⟨100005 / 10000, 200005 / 10000⟩ := by
  have hp := progress_scenario 2000 ⟨10, 20⟩ (some ⟨10001 / 1000, 20001 / 1000⟩) 500
    (by norm_num)
  norm_num at hp
  refine ⟨?_, ?_, ?_, ?_, ?_⟩
  · simp [deletedState, deleteBus, scenarioState, handleLocationUpdate, markerUpdate,
      updateMapMarker, mergeIntoStore, fetchInitialBuses, mergeBus, State.empty, Table.get,
      Table.truthy, Table.set, Table.modify, Table.erase, positionUpdate, rosterBus, jsString,
      latLng, stamp, inherited_B1]
  · simp [deletedState, deleteBus, scenarioState, handleLocationUpdate, markerUpdate,
      updateMapMarker, mergeIntoStore, fetchInitialBuses, mergeBus, State.empty, Table.get,
      Table.truthy, Table.set, Table.modify, Table.erase, positionUpdate, rosterBus, jsString,
      latLng, stamp, inherited_B1]
  · simp [deletedState, deleteBus, scenarioState, handleLocationUpdate, markerUpdate,
      updateMapMarker, mergeIntoStore, fetchInitialBuses, mergeBus, State.empty, Table.get,
      Table.truthy, Table.set, Table.modify, Table.erase, positionUpdate, rosterBus, jsString,
      latLng, stamp, inherited_B1]
  · simp [reAddedState, deletedState, deleteBus, scenarioState, handleLocationUpdate,
      markerUpdate, updateMapMarker, mergeIntoStore, fetchInitialBuses, mergeBus, State.empty,
      Table.get, Table.truthy, Table.set, Table.modify, Table.erase, positionUpdate, rosterBus,
      jsString, latLng, stamp, inherited_B1]
  · simp [animateMarkers, animateKeys, animateOne, reAddedState, deletedState, deleteBus,
      scenarioState, handleLocationUpdate, markerUpdate,
      updateMapMarker, mergeIntoStore, fetchInitialBuses, mergeBus, State.empty, Table.get,
      Table.truthy, Table.set, Table.modify, Table.keys, Table.erase, positionUpdate, rosterBus,
      jsString, latLng, hp, interpolate, lerp, stamp, inherited_B1]
    norm_num

end Tracko

namespace Tracko

/-! ## Marker placement -/

theorem updateMapMarker_busMarkers_of_ne (s : State) (busId : Option String)
    (lat lon : Option ℚ) (routeInfo : Option String) (perfNow : ℚ) {k : String}
    (hk : jsString busId ≠ k) :
    (updateMapMarker s busId lat lon routeInfo perfNow).state.busMarkers.get k
      = s.busMarkers.get k := by
  unfold updateMapMarker
  cases s.busMarkers.get (jsString busId) with
  | some m => exact Table.get_modify_of_ne _ hk _
  | none =>
    cases inherited (jsString busId) with
    | true => rfl
    | false =>
      cases lat with
      | none => rfl
      | some a =>
        cases lon with
        | none => rfl
        | some b => exact Table.get_set_of_ne _ hk _

theorem updateMapMarker_busAnimations_of_ne (s : State) (busId : Option String)
    (lat lon : Option ℚ) (routeInfo : Option String) (perfNow : ℚ) {k : String}
    (hk : jsString busId ≠ k) :
    (updateMapMarker s busId lat lon routeInfo perfNow).state.busAnimations.get k
      = s.busAnimations.get k := by
  unfold updateMapMarker
  cases s.busMarkers.get (jsString busId) with
  | some m => exact Table.get_set_of_ne _ hk _
  | none =>
    cases inherited (jsString busId) with
    | true => rfl
    | false => cases lat <;> cases lon <;> rfl

/-- For an id that is not an inherited name and has no marker,
`updateMapMarker(id, lat, lon, label)` puts a marker for the id exactly at
(lat, lon), leaves `busAnimations` as it was and does not throw. For an id with
a marker, the call leaves the marker where it is (only the popup changes) and
stores under the id a segment from the current position of the marker to
(lat, lon), starting at the current time and lasting 1000 ms, in place of any
segment stored before. -/
theorem first_sighting_of_not_inherited (s : State) (busId : Option String) (lat lon : ℚ)
    (label : Option String) (perfNow : ℚ) :
    (s.busMarkers.get (jsString busId) = none → inherited (jsString busId) = false →
      (updateMapMarker s busId (some lat) (some lon) label perfNow).state.busMarkers.get
          (jsString busId) = some ⟨⟨lat, lon⟩, popupContent busId label⟩ ∧
      (updateMapMarker s busId (some lat) (some lon) label perfNow).state.busAnimations
          = s.busAnimations ∧
      (updateMapMarker s busId (some lat) (some lon) label perfNow).raised = false) ∧
    (∀ marker, s.busMarkers.get (jsString busId) = some marker →
      (updateMapMarker s busId (some lat) (some lon) label perfNow).state.busMarkers.get
          (jsString busId) = some ⟨marker.latlng, popupContent busId label⟩ ∧
      (updateMapMarker s busId (some lat) (some lon) label perfNow).state.busAnimations.get
          (jsString busId) = some ⟨marker.latlng, some ⟨lat, lon⟩, perfNow, 1000⟩ ∧
      (updateMapMarker s busId (some lat) (some lon) label perfNow).raised = false) := by
  constructor
  · intro h hi
    refine ⟨?_, ?_, ?_⟩
    · simp only [updateMapMarker, h, hi]
      exact Table.get_set_self _ _ _
    · simp [updateMapMarker, h, hi]
    · simp [updateMapMarker, h, hi]
  · intro marker h
    refine ⟨?_, ?_, ?_⟩
    · simp only [updateMapMarker, h]
      rw [Table.get_modify_self, h]
      rfl
    · simp only [updateMapMarker, h]
      rw [Table.get_set_self]
      rfl
    · simp only [updateMapMarker, h]

/-- C9, the code at the failing input. "constructor" names a member inherited
from `Object.prototype` and has no marker in the empty state, yet
`updateMapMarker("constructor", 10, 20, label)` places no marker: the guard of
line 334 reads the inherited member, the call of `getLatLng` on it throws, and
the three tables are left empty. The same happens when the call comes from
`handleLocationUpdate` on the first position update for "constructor". -/
theorem C9_inherited_id_no_marker :
    inherited "constructor" = true ∧
    State.empty.busMarkers.get (jsString (some "constructor")) = none ∧
    updateMapMarker State.empty (some "constructor") (some 10) (some 20) none 0
      = ⟨State.empty, true⟩ ∧
    (updateMapMarker State.empty (some "constructor") (some 10) (some 20) none
        0).state.busMarkers.get "constructor" = none ∧
    (handleLocationUpdate State.empty (positionUpdate "constructor" 10 20) 0
        0).busMarkers.get "constructor" = none := by
  have hi : inherited "constructor" = true := by decide
  have h : updateMapMarker State.empty (some "constructor") (some 10) (some 20) none 0
      = ⟨State.empty, true⟩ := by
    simp [updateMapMarker, State.empty, Table.get, jsString, hi]
  refine ⟨hi, rfl, h, ?_, ?_⟩
  · rw [h]; rfl
  · simp [handleLocationUpdate, markerUpdate, updateMapMarker, mergeIntoStore, State.empty,
      Table.get, Table.truthy, Table.modify, positionUpdate, jsString, hi]

end Tracko

namespace Tracko

/-! ## Malformed updates -/

/-- C8, refuted as stated, part by part. On the empty state an update for "B1"
that lacks `lat` creates a record for "B1" (the store is changed) and the marker
placement throws (the call raises). An update that lacks only `bus_id` places a
marker under the key "undefined" (the marker table is changed). In the scenario
state, where "B1" has a marker, the update that lacks `lat` replaces the segment
of "B1" by one without target (the animation table is changed), and the next
frame throws on it. -/
theorem C8_malformed_counterexample :
    wellFormed latlessUpdate = false ∧
    (handleLocationUpdate State.empty latlessUpdate 7 0).busesData.get "B1"
      = some { bus_id := some "B1", driver_name := none, route_stops := some "Unknown",
               lat := none, lon := some 20, lastUpdated := some 7, others := [] } ∧
    handleLocationUpdate State.empty latlessUpdate 7 0 ≠ State.empty ∧
    (markerUpdate State.empty latlessUpdate 7 0).raised = true ∧
    wellFormed ⟨none, some 10, some 20, none⟩ = false ∧
    (handleLocationUpdate State.empty ⟨none, some 10, some 20, none⟩ 7 0).busMarkers.get
        "undefined" = some ⟨⟨10, 20⟩, "<b>undefined</b><br>Unknown"⟩ ∧
    (scenarioState 2000).busAnimations.get "B1"
      = some ⟨⟨10, 20⟩, some ⟨10001 / 1000, 20001 / 1000⟩, 2000, 1000⟩ ∧
    (handleLocationUpdate (scenarioState 2000) latlessUpdate 7 2100).busAnimations.get "B1"
      = some ⟨⟨10, 20⟩, none, 2100, 1000⟩ ∧
    (animateMarkers (handleLocationUpdate (scenarioState 2000) latlessUpdate 7 2100)
        2200).raised = true := by
  have h : (handleLocationUpdate State.empty latlessUpdate 7 0).busesData.get "B1"
      = some { bus_id := some "B1", driver_name := none, route_stops := some "Unknown",
               lat := none, lon := some 20, lastUpdated := some 7, others := [] } := by
    simp [handleLocationUpdate_busesData, mergeIntoStore, State.empty, Table.get, Table.set,
      Table.truthy, Table.modify, latlessUpdate, jsString, freshBus, stamp, orElse,
      inherited_B1]
  refine ⟨by simp [wellFormed, latlessUpdate], h, ?_, ?_, by simp [wellFormed], ?_, ?_, ?_, ?_⟩
  · intro hs
    rw [hs] at h
    simp [State.empty, Table.get] at h
  · simp [markerUpdate, updateMapMarker, mergeIntoStore, State.empty, Table.get, Table.set,
      Table.truthy, Table.modify, latlessUpdate, jsString, inherited_B1]
  · simp [handleLocationUpdate, markerUpdate, updateMapMarker, mergeIntoStore, State.empty,
      Table.get, Table.set, Table.truthy, Table.modify, jsString, freshBus, stamp, orElse,
      popupContent, inherited_undefined]
  · simp [scenarioState, handleLocationUpdate, markerUpdate, updateMapMarker, mergeIntoStore,
      fetchInitialBuses, mergeBus, State.empty, Table.get, Table.truthy, Table.set,
      Table.modify, positionUpdate, rosterBus, jsString, latLng, stamp, inherited_B1]
  · simp [scenarioState, handleLocationUpdate, markerUpdate, updateMapMarker, mergeIntoStore,
      fetchInitialBuses, mergeBus, State.empty, Table.get, Table.truthy, Table.set,
      Table.modify, positionUpdate, latlessUpdate, rosterBus, jsString, latLng, stamp,
      inherited_B1]
  · simp [animateMarkers, animateKeys, animateOne, scenarioState, handleLocationUpdate,
      markerUpdate, updateMapMarker, mergeIntoStore, fetchInitialBuses, mergeBus, State.empty,
      Table.get, Table.truthy, Table.set, Table.modify, Table.keys, positionUpdate,
      latlessUpdate, rosterBus, jsString, latLng, stamp, inherited_B1]

end Tracko

namespace Tracko

/-- C8, amended. `handleLocationUpdate` does not drop an update that lacks a
field. For every state and every update whose key (the `bus_id`, or the string
"undefined" when `bus_id` is lacking) is not an inherited name:
the record under the key exists afterwards and holds the `lat` and `lon` of the
update, undefined where lacking, and the date of the call; under every other key
the store, the markers and the animations read as before; when `lat` or `lon` is
lacking and the key has no marker, markers and animations are unchanged and the
marker placement throws; when the key has a marker, the marker is not moved and a
segment from its position is stored under the key, without target when `lat` or
`lon` is lacking; when both coordinates are there and the key has no marker, a
marker is placed at them and the animations are unchanged. -/
theorem C8_malformed_not_dropped (s : State) (u : Update) (date : ℕ) (perfNow : ℚ)
    (hkey : inherited (jsString u.bus_id) = false) :
    (∃ bus, (handleLocationUpdate s u date perfNow).busesData.get (jsString u.bus_id)
        = some bus ∧ bus.lat = u.lat ∧ bus.lon = u.lon ∧ bus.lastUpdated = some date) ∧
    (u.bus_id = none →
      ∃ bus, (handleLocationUpdate s u date perfNow).busesData.get "undefined" = some bus ∧
        bus.lat = u.lat ∧ bus.lon = u.lon ∧ bus.lastUpdated = some date) ∧
    (∀ k, jsString u.bus_id ≠ k →
      (handleLocationUpdate s u date perfNow).busesData.get k = s.busesData.get k ∧
      (handleLocationUpdate s u date perfNow).busMarkers.get k = s.busMarkers.get k ∧
      (handleLocationUpdate s u date perfNow).busAnimations.get k
        = s.busAnimations.get k) ∧
    (s.busMarkers.get (jsString u.bus_id) = none → (u.lat = none ∨ u.lon = none) →
      (handleLocationUpdate s u date perfNow).busMarkers = s.busMarkers ∧
      (handleLocationUpdate s u date perfNow).busAnimations = s.busAnimations ∧
      (markerUpdate s u date perfNow).raised = true) ∧
    (∀ marker, s.busMarkers.get (jsString u.bus_id) = some marker →
      ((handleLocationUpdate s u date perfNow).busMarkers.get (jsString u.bus_id)).map
          Marker.latlng = some marker.latlng ∧
      (handleLocationUpdate s u date perfNow).busAnimations.get (jsString u.bus_id)
        = some ⟨marker.latlng, latLng u.lat u.lon, perfNow, 1000⟩ ∧
      ((u.lat = none ∨ u.lon = none) →
        (handleLocationUpdate s u date perfNow).busAnimations.get (jsString u.bus_id)
          = some ⟨marker.latlng, none, perfNow, 1000⟩) ∧
      (markerUpdate s u date perfNow).raised = false) ∧
    (∀ a b, s.busMarkers.get (jsString u.bus_id) = none → u.lat = some a → u.lon = some b →
      ((handleLocationUpdate s u date perfNow).busMarkers.get (jsString u.bus_id)).map
          Marker.latlng = some ⟨a, b⟩ ∧
      (handleLocationUpdate s u date perfNow).busAnimations = s.busAnimations ∧
      (markerUpdate s u date perfNow).raised = false) := by
  have hstore : ∃ bus,
      (handleLocationUpdate s u date perfNow).busesData.get (jsString u.bus_id) = some bus ∧
        bus.lat = u.lat ∧ bus.lon = u.lon ∧ bus.lastUpdated = some date := by
    rw [handleLocationUpdate_busesData, get_mergeIntoStore_self]
    cases s.busesData.get (jsString u.bus_id) with
    | some bus => exact ⟨_, rfl, rfl, rfl, rfl⟩
    | none => simp only [hkey]; exact ⟨_, rfl, rfl, rfl, rfl⟩
  refine ⟨hstore, ?_, ?_, ?_, ?_, ?_⟩
  · intro hid
    have hk : jsString u.bus_id = "undefined" := by rw [hid]; rfl
    rw [← hk]
    exact hstore
  · intro k hk
    refine ⟨?_, ?_, ?_⟩
    · rw [handleLocationUpdate_busesData, get_mergeIntoStore_of_ne _ _ _ hk]
    · unfold handleLocationUpdate markerUpdate
      exact updateMapMarker_busMarkers_of_ne _ _ _ _ _ _ hk
    · unfold handleLocationUpdate markerUpdate
      exact updateMapMarker_busAnimations_of_ne _ _ _ _ _ _ hk
  · intro hm hc
    obtain ⟨bid, lat, lon, route⟩ := u
    simp only at hm hkey hc
    rcases hc with hc | hc
    · subst hc
      simp [handleLocationUpdate, markerUpdate, updateMapMarker, hm, hkey]
    · subst hc
      cases lat <;> simp [handleLocationUpdate, markerUpdate, updateMapMarker, hm, hkey]
  · intro marker hm
    have hanim : (handleLocationUpdate s u date perfNow).busAnimations.get (jsString u.bus_id)
        = some ⟨marker.latlng, latLng u.lat u.lon, perfNow, 1000⟩ := by
      simp only [handleLocationUpdate, markerUpdate, updateMapMarker, hm]
      exact Table.get_set_self _ _ _
    refine ⟨?_, hanim, ?_, ?_⟩
    · simp only [handleLocationUpdate, markerUpdate, updateMapMarker, hm]
      rw [Table.get_modify_self, hm]
      rfl
    · intro hc
      rw [hanim]
      rcases hc with hc | hc
      · simp [latLng, hc]
      · cases hl : u.lat <;> simp [latLng, hc]
    · simp only [markerUpdate, updateMapMarker, hm]
  · intro a b hm ha hb
    obtain ⟨bid, lat, lon, route⟩ := u
    simp only at hm hkey ha hb
    subst ha hb
    refine ⟨?_, ?_, ?_⟩
    · simp only [handleLocationUpdate, markerUpdate, updateMapMarker, hm, hkey]
      simp [Table.get_set_self]
    · simp [handleLocationUpdate, markerUpdate, updateMapMarker, hm, hkey]
    · simp [markerUpdate, updateMapMarker, hm, hkey]

/-- Witness of the amended C8. An update without `bus_id` and `lat`, applied to
the scenario state, is stored under "undefined", leaves "B1" alone in all three
tables, leaves markers and animations as they are and throws in the marker
placement. -/
theorem C8_malformed_not_dropped_witness :
    (∃ bus, (handleLocationUpdate (scenarioState 2000) anonymousUpdate 7 2100).busesData.get
        "undefined" = some bus ∧
      bus.lat = anonymousUpdate.lat ∧ bus.lon = anonymousUpdate.lon ∧
      bus.lastUpdated = some 7) ∧
    ((handleLocationUpdate (scenarioState 2000) anonymousUpdate 7 2100).busesData.get "B1"
        = (scenarioState 2000).busesData.get "B1" ∧
      (handleLocationUpdate (scenarioState 2000) anonymousUpdate 7 2100).busMarkers.get "B1"
        = (scenarioState 2000).busMarkers.get "B1" ∧
      (handleLocationUpdate (scenarioState 2000) anonymousUpdate 7 2100).busAnimations.get "B1"
        = (scenarioState 2000).busAnimations.get "B1") ∧
    ((handleLocationUpdate (scenarioState 2000) anonymousUpdate 7 2100).busMarkers
        = (scenarioState 2000).busMarkers ∧
      (handleLocationUpdate (scenarioState 2000) anonymousUpdate 7 2100).busAnimations
        = (scenarioState 2000).busAnimations ∧
      (markerUpdate (scenarioState 2000) anonymousUpdate 7 2100).raised = true) :=
  have hkey : inherited (jsString anonymousUpdate.bus_id) = false := inherited_undefined
  ⟨(C8_malformed_not_dropped (scenarioState 2000) anonymousUpdate 7 2100 hkey).2.1 rfl,
   (C8_malformed_not_dropped (scenarioState 2000) anonymousUpdate 7 2100 hkey).2.2.1 "B1"
      (by simp [anonymousUpdate, jsString]),
   (C8_malformed_not_dropped (scenarioState 2000) anonymousUpdate 7 2100 hkey).2.2.2.1
      (by simp [scenarioState, handleLocationUpdate, markerUpdate, updateMapMarker,
            mergeIntoStore, fetchInitialBuses, mergeBus, State.empty, Table.get, Table.truthy,
            Table.set, Table.modify, positionUpdate, anonymousUpdate, rosterBus, jsString,
            latLng, stamp, inherited_B1])
      (Or.inl rfl)⟩

end Tracko

namespace Tracko

/-! ## Position and timestamp -/

theorem paired_step (s : State) (e : Event) (he : paired e = true) (h : StorePaired s.busesData) :
    StorePaired (step s e).busesData := by
  intro k bus hk
  cases e with
  | snapshot response =>
    cases response with
    | none => exact h k bus hk
    | some buses =>
      have hk2 : (buses.foldl mergeBus s.busesData).get k = some bus := hk
      rw [get_foldl_mergeBus] at hk2
      cases hd : s.busesData.get k with
      | some b0 =>
        rw [hd] at hk2
        have : b0 = bus := by simpa [Option.orElse] using hk2
        exact this ▸ h k b0 hd
      | none =>
        rw [hd] at hk2
        cases hi : inherited k with
        | true => simp [hi] at hk2
        | false =>
          have hfind : buses.find? (fun b => decide (jsString b.bus_id = k)) = some bus := by
            simpa [hi] using hk2
          have hmem : bus ∈ buses := List.mem_of_find?_eq_some hfind
          have hall : (buses.all (fun b => hasPosition b == hasTimestamp b)) = true := he
          rw [List.all_eq_true] at hall
          simpa using hall bus hmem
  | update u date perfNow =>
    have hk2 : (mergeIntoStore s.busesData u date).get k = some bus := by
      rw [← handleLocationUpdate_busesData s u date perfNow]
      exact hk
    have hu : (u.lat.isSome && u.lon.isSome) = true := he
    by_cases hkey : jsString u.bus_id = k
    · subst hkey
      rw [get_mergeIntoStore_self] at hk2
      have hstamp : ∀ b0 : Bus, hasPosition (stamp u date b0) = hasTimestamp (stamp u date b0) := by
        intro b0
        simpa [hasPosition, hasTimestamp, stamp] using hu
      cases hd : s.busesData.get (jsString u.bus_id) with
      | some b0 =>
        rw [hd] at hk2
        rw [← Option.some.inj hk2]
        exact hstamp b0
      | none =>
        rw [hd] at hk2
        cases hi : inherited (jsString u.bus_id) with
        | true => simp [hi] at hk2
        | false =>
          simp only [hi] at hk2
          rw [← Option.some.inj hk2]
          exact hstamp _
    · rw [get_mergeIntoStore_of_ne _ _ _ hkey] at hk2
      exact h k bus hk2
  | addBus bus_id driver_name route_stops res =>
    cases res with
    | ok =>
      by_cases hfree : s.busesData.truthy bus_id = true
      · have hk2 : s.busesData.get k = some bus := by
          simpa [step, addBusSubmit, hfree] using hk
        exact h k bus hk2
      · have hk2 : (s.busesData.set bus_id
            { bus_id := some bus_id, driver_name := some driver_name,
              route_stops := some route_stops, lat := none, lon := none,
              lastUpdated := none, others := [] }).get k = some bus := by
          simpa [step, addBusSubmit, hfree] using hk
        by_cases hkey : bus_id = k
        · subst hkey
          rw [Table.get_set_self] at hk2
          rw [← Option.some.inj hk2]
          rfl
        · rw [Table.get_set_of_ne _ hkey] at hk2
          exact h k bus hk2
    | notOk => exact h k bus hk
    | failed => exact h k bus hk
  | delete busId confirmed res =>
    cases confirmed with
    | false => exact h k bus hk
    | true =>
      cases res with
      | ok =>
        have hk2 : (s.busesData.erase busId).get k = some bus := hk
        by_cases hkey : busId = k
        · subst hkey
          rw [Table.get_erase_self] at hk2
          cases hk2
        · rw [Table.get_erase_of_ne _ hkey] at hk2
          exact h k bus hk2
      | notOk => exact h k bus hk
      | failed => exact h k bus hk

/-- C10, refuted as stated: from the empty store, the merge of a roster whose
record of "B1" carries `lat` and `lon` gives a record with a position and no
timestamp; and an update for "B1" that lacks `lat` gives a record with a
timestamp and no position. -/
theorem C10_pairing_counterexample :
    ((run State.empty [Event.snapshot (some positionedRoster)]).busesData.get "B1").map
        (fun bus => (hasPosition bus, hasTimestamp bus)) = some (true, false) ∧
    ((run State.empty [Event.update latlessUpdate 7 0]).busesData.get "B1").map
        (fun bus => (hasPosition bus, hasTimestamp bus)) = some (false, true) := by
  constructor
  · simp [run, step, fetchInitialBuses, mergeBus, positionedRoster, State.empty, Table.get,
      Table.truthy, Table.set, rosterBus, jsString, hasPosition, hasTimestamp, inherited_B1]
  · simp [run, step, handleLocationUpdate_busesData, mergeIntoStore, State.empty, Table.get,
      Table.truthy, Table.set, Table.modify, latlessUpdate, jsString, freshBus, stamp,
      hasPosition, hasTimestamp, inherited_B1]

/-- C10, amended. In every store reachable from the empty store by roster
merges whose records carry a position exactly when they carry a timestamp,
streaming updates that carry both `lat` and `lon`, local additions and
deletions, every record has a position if and only if it has a `lastUpdated`
timestamp. -/
theorem C10_pairing_invariant (events : List Event)
    (hev : ∀ e ∈ events, paired e = true) (k : String) (bus : Bus)
    (hk : (run State.empty events).busesData.get k = some bus) :
    hasPosition bus = true ↔ hasTimestamp bus = true := by
  have hinv : ∀ (evs : List Event) (s : State), (∀ e ∈ evs, paired e = true) →
      StorePaired s.busesData → StorePaired (run s evs).busesData := by
    intro evs
    induction evs with
    | nil => intro s _ hs; exact hs
    | cons e es ih =>
      intro s hes hs
      show StorePaired (run (step s e) es).busesData
      exact ih (step s e) (fun e' he' => hes e' (List.mem_cons_of_mem _ he'))
        (paired_step s e (hes e (List.mem_cons_self _ _)) hs)
  have h0 : StorePaired State.empty.busesData := by
    intro k bus hk
    simp [State.empty, Table.get] at hk
  rw [hinv events State.empty hev h0 k bus hk]

/-- Witness of the amended C10 on a session with a roster merge, an update, a
local addition and a deletion. -/
theorem C10_pairing_invariant_witness :
    (∀ e ∈ sessionEvents, paired e = true) ∧
    (run State.empty sessionEvents).busesData.get "B1"
      = some { rosterBus "B1" with lat := some 10, lon := some 20, lastUpdated := some 3 } ∧
    (hasPosition { rosterBus "B1" with lat := some 10, lon := some 20, lastUpdated := some 3 }
        = true ↔
      hasTimestamp { rosterBus "B1" with lat := some 10, lon := some 20, lastUpdated := some 3 }
        = true) :=
  have hev : ∀ e ∈ sessionEvents, paired e = true := by
    simp [sessionEvents, paired, rosterBus, positionUpdate, hasPosition, hasTimestamp]
  have hk : (run State.empty sessionEvents).busesData.get "B1"
      = some { rosterBus "B1" with lat := some 10, lon := some 20, lastUpdated := some 3 } := by
    simp [run, step, sessionEvents, fetchInitialBuses, mergeBus, handleLocationUpdate,
      markerUpdate, updateMapMarker, mergeIntoStore, addBusSubmit, deleteBus, State.empty,
      Table.get, Table.truthy, Table.set, Table.modify, Table.erase, positionUpdate, rosterBus,
      jsString, latLng, stamp, inherited_B1, inherited_B2]
  ⟨hev, hk, C10_pairing_invariant sessionEvents hev "B1" _ hk⟩

end Tracko
